import Mathlib

/-!
Verification development for the browser game client in `game.js`.

The client is shallowly embedded: JavaScript numbers are modelled as real
numbers, the entity maps (`this.players`, `this.avatars`, `this.npcs`) as
association lists with JS `Map.set` upsert semantics, and the fallible
message handlers as `Except`-valued functions (a thrown `TypeError` becomes
an `Except.error`).  Browser-only collaborators (canvas drawing, image
decoding, timers) are outside the embedding; an image is represented by the
source payload string it was decoded from.
-/

namespace GameClient

/-- World width in world units (`this.worldWidth = 2048`). -/
def worldWidth : ℝ := 2048

/-- World height in world units (`this.worldHeight = 2048`). -/
def worldHeight : ℝ := 2048

/-- Facing directions used by players and NPCs. -/
inductive Facing where
  | north
  | south
  | east
  | west
deriving DecidableEq

/-- The camera rectangle (`this.viewport`): origin and size in world units. -/
structure Viewport where
  x : ℝ
  y : ℝ
  width : ℝ
  height : ℝ

/-- A player record as stored in `this.players`. -/
structure PlayerData where
  id : String
  username : String
  x : ℝ
  y : ℝ
  avatar : String
  facing : Facing
  animationFrame : ℕ

/-- `worldToScreen(worldX, worldY)`: subtract the viewport origin. -/
def worldToScreen (v : Viewport) (worldX worldY : ℝ) : ℝ × ℝ :=
  (worldX - v.x, worldY - v.y)

/-- `screenToWorld(screenX, screenY)`: add the viewport origin. -/
def screenToWorld (v : Viewport) (screenX screenY : ℝ) : ℝ × ℝ :=
  (screenX + v.x, screenY + v.y)

/-- `updateViewport()`: recenter the camera on the local player, then clamp
each axis to `[0, worldSize - viewportSize]`; a no-op when there is no local
player. -/
noncomputable def updateViewport (v : Viewport) (myPlayer : Option PlayerData) : Viewport :=
  match myPlayer with
  | none => v
  | some p =>
    let centerX := p.x
    let centerY := p.y
    let viewportX := centerX - v.width / 2
    let viewportY := centerY - v.height / 2
    let viewportX := max 0 (min viewportX (worldWidth - v.width))
    let viewportY := max 0 (min viewportY (worldHeight - v.height))
    { v with x := viewportX, y := viewportY }

/-- An NPC (companion) record as stored in `this.npcs`. -/
structure NPC where
  id : String
  name : String
  x : ℝ
  y : ℝ
  avatar : String
  followDistance : ℝ
  facing : Facing
  isMoving : Bool
  animationFrame : ℕ
  lastUpdate : ℕ

/-- `Math.atan2(y, x)`: the argument of the complex number `x + y*i`. -/
noncomputable def atan2 (y x : ℝ) : ℝ :=
  Complex.arg ⟨x, y⟩

/-- The Euclidean distance from an NPC to the local player, exactly as
`updateNPCs` computes it: `Math.sqrt(dx*dx + dy*dy)` with
`dx = myPlayer.x - npc.x` and `dy = myPlayer.y - npc.y`. -/
noncomputable def npcDistance (npc : NPC) (myPlayer : PlayerData) : ℝ :=
  let dx := myPlayer.x - npc.x
  let dy := myPlayer.y - npc.y
  Real.sqrt (dx * dx + dy * dy)

/-- The per-NPC body of `updateNPCs`: chase the local player when farther
than the follow distance, otherwise stand still; finally clamp the position
into world bounds and stamp the update time. -/
noncomputable def updateNPC (npc : NPC) (myPlayer : PlayerData) (now : ℕ) : NPC :=
  let dx := myPlayer.x - npc.x
  let dy := myPlayer.y - npc.y
  let distance := Real.sqrt (dx * dx + dy * dy)
  if distance > npc.followDistance then
    let moveSpeed : ℝ := 2
    let angle := atan2 dy dx
    let newX := npc.x + Real.cos angle * moveSpeed
    let newY := npc.y + Real.sin angle * moveSpeed
    let newFacing :=
      if |dx| > |dy| then (if dx > 0 then Facing.east else Facing.west)
      else (if dy > 0 then Facing.south else Facing.north)
    { npc with
        x := max 0 (min newX worldWidth)
        y := max 0 (min newY worldHeight)
        facing := newFacing
        isMoving := true
        animationFrame := (npc.animationFrame + 1) % 3
        lastUpdate := now }
  else
    { npc with
        x := max 0 (min npc.x worldWidth)
        y := max 0 (min npc.y worldHeight)
        isMoving := false
        animationFrame := 0
        lastUpdate := now }

/-- The NPC update cadence in milliseconds (`const updateInterval = 100`). -/
def updateInterval : ℕ := 100

/-- `updateNPCs()`: a no-op without a local player; otherwise each NPC whose
last update is less than `updateInterval` ago is skipped, and the rest run
one tick of `updateNPC`. -/
noncomputable def updateNPCs (myPlayer : Option PlayerData) (now : ℕ)
    (npcs : List (String × NPC)) : List (String × NPC) :=
  match myPlayer with
  | none => npcs
  | some p =>
    npcs.map fun kv =>
      if now - kv.2.lastUpdate < updateInterval then kv
      else (kv.1, updateNPC kv.2 p now)

/-- The three companions seeded by `createNPCs`, positioned relative to the
local player. -/
def npcSeedData (p : PlayerData) (now : ℕ) : List NPC :=
  [ { id := "npc1", name := "Guardian", x := p.x - 50, y := p.y - 50,
      avatar := "guardian", followDistance := 100, facing := Facing.south,
      isMoving := false, animationFrame := 0, lastUpdate := now },
    { id := "npc2", name := "Companion", x := p.x + 50, y := p.y - 50,
      avatar := "companion", followDistance := 150, facing := Facing.south,
      isMoving := false, animationFrame := 0, lastUpdate := now },
    { id := "npc3", name := "Pet", x := p.x, y := p.y + 50,
      avatar := "pet", followDistance := 80, facing := Facing.south,
      isMoving := false, animationFrame := 0, lastUpdate := now } ]

/-- An avatar definition as stored in `this.avatars` / `this.npcAvatars`:
`frames` maps a direction name to raw frame payloads, and `images`, once
populated by `loadAvatarImages`, holds the decoded images (each represented
here by its source payload). -/
structure AvatarData where
  name : String
  frames : List (String × List String)
  images : Option (List (String × List String))

/-- JS `Map.set` upsert semantics on an association list: replace in place
when the key exists, append otherwise. -/
def mapSet {β : Type} (m : List (String × β)) (k : String) (v : β) :
    List (String × β) :=
  if m.any (fun kv => kv.1 = k) then
    m.map (fun kv => if kv.1 = k then (k, v) else kv)
  else m ++ [(k, v)]

/-- JS `Map.delete` on an association list: drop the key, a no-op when it is
absent. -/
def mapDelete {β : Type} (m : List (String × β)) (k : String) :
    List (String × β) :=
  m.filter (fun kv => kv.1 ≠ k)

/-- The mutable client state relevant to the message handlers: the entity
store (`players`, `avatars`, `npcs`, `npcAvatars`, the local-player id and
reference) plus the camera. -/
structure GameState where
  players : List (String × PlayerData)
  avatars : List (String × AvatarData)
  myPlayerId : Option String
  myPlayer : Option PlayerData
  npcs : List (String × NPC)
  npcAvatars : List (String × AvatarData)
  viewport : Viewport

/-- An inbound server message, with the fields the handlers read.  A field
absent from the JSON payload is `none` / empty. -/
structure ServerMessage where
  action : String
  success : Bool := false
  error : Option String := none
  playerId : String := ""
  players : List (String × PlayerData) := []
  avatars : List (String × AvatarData) := []
  player : Option PlayerData := none
  avatar : Option AvatarData := none

/-- `loadAvatarImages()`: for each avatar definition without images, decode
every frame of every direction; idempotent because populated entries are
skipped. -/
def loadAvatarImages (avatars : List (String × AvatarData)) :
    List (String × AvatarData) :=
  avatars.map fun kv =>
    match kv.2.images with
    | some _ => kv
    | none => (kv.1, { kv.2 with images := some kv.2.frames })

/-- The avatar names given to the three NPC avatars in `createNPCAvatars`. -/
def npcAvatarTypes : List String := [r"guardian", r"companion", r"pet"]

/-- `createNPCAvatars()`: store a three-frame, four-direction avatar for each
NPC avatar type (the frames are canvas-drawn squares; the drawn payload is
opaque here). -/
def createNPCAvatars (npcAvatars : List (String × AvatarData)) :
    List (String × AvatarData) :=
  npcAvatarTypes.foldl
    (fun m n => mapSet m n { name := n, frames := [], images := some [] })
    npcAvatars

/-- `createNPCs()`: a no-op without a local player; otherwise build the NPC
avatars and upsert the three seeded companions. -/
def createNPCs (st : GameState) (now : ℕ) : GameState :=
  match st.myPlayer with
  | none => st
  | some p =>
    let st1 := { st with npcAvatars := createNPCAvatars st.npcAvatars }
    { st1 with
        npcs := (npcSeedData p now).foldl
          (fun m npc => mapSet m npc.id npc) st1.npcs }

/-- The error raised when `handleJoinGameSuccess` reads
`this.myPlayer.username` while `myPlayer` is still null. -/
def joinNullPlayerError : String :=
  "TypeError: cannot read username of null myPlayer"

/-- The error raised when `handlePlayerJoined` reads `message.player.id` or
`message.avatar.name` of an absent field. -/
def missingFieldError : String :=
  "TypeError: cannot read property of undefined"

/-- One iteration of the player-storing loop in `handleJoinGameSuccess`:
upsert the entry and, when its key equals `this.myPlayerId`, record it as
the local player. -/
def joinPlayerStep (s : GameState) (kv : String × PlayerData) : GameState :=
  let s1 := { s with players := mapSet s.players kv.1 kv.2 }
  if some kv.1 = s1.myPlayerId then { s1 with myPlayer := some kv.2 } else s1

/-- `handleJoinGameSuccess(message)`: record the assigned player id, store
all players (capturing the local one), store the avatars, decode avatar
images, create the NPCs, recenter the viewport, and finally log
`this.myPlayer.username` — which throws when no stored player matched the
assigned id. -/
noncomputable def handleJoinGameSuccess (st : GameState) (msg : ServerMessage)
    (now : ℕ) : Except String GameState :=
  let st1 := { st with myPlayerId := some msg.playerId }
  let st2 := msg.players.foldl joinPlayerStep st1
  let st3 := { st2 with
    avatars := msg.avatars.foldl
      (fun m (kv : String × AvatarData) => mapSet m kv.1 kv.2) st2.avatars }
  let st4 := { st3 with avatars := loadAvatarImages st3.avatars }
  let st5 := createNPCs st4 now
  let st6 := { st5 with viewport := updateViewport st5.viewport st5.myPlayer }
  match st6.myPlayer with
  | some _ => Except.ok st6
  | none => Except.error joinNullPlayerError

/-- `handlePlayerJoined(message)`: store the joining player and its avatar,
then decode avatar images; reading a missing `player`/`avatar` field
throws. -/
def handlePlayerJoined (st : GameState) (msg : ServerMessage) :
    Except String GameState :=
  match msg.player, msg.avatar with
  | some p, some a =>
    let st1 := { st with players := mapSet st.players p.id p }
    let st2 := { st1 with avatars := mapSet st1.avatars a.name a }
    Except.ok { st2 with avatars := loadAvatarImages st2.avatars }
  | _, _ => Except.error missingFieldError

/-- One iteration of the `handlePlayersMoved` loop: upsert the entry and,
when it is the local player, update the reference and recenter the
viewport. -/
noncomputable def movePlayerStep (s : GameState) (kv : String × PlayerData) :
    GameState :=
  let s1 := { s with players := mapSet s.players kv.1 kv.2 }
  if some kv.1 = s1.myPlayerId then
    let s2 := { s1 with myPlayer := some kv.2 }
    { s2 with viewport := updateViewport s2.viewport s2.myPlayer }
  else s1

/-- `handlePlayersMoved(message)`: apply every moved player entry. -/
noncomputable def handlePlayersMoved (st : GameState) (msg : ServerMessage) :
    GameState :=
  msg.players.foldl movePlayerStep st

/-- `handlePlayerLeft(message)`: delete the player entry. -/
def handlePlayerLeft (st : GameState) (msg : ServerMessage) : GameState :=
  { st with players := mapDelete st.players msg.playerId }

/-- `handleServerMessage(message)`: dispatch on the `action` discriminator;
unknown actions are only logged and change nothing. -/
noncomputable def handleServerMessage (st : GameState) (msg : ServerMessage)
    (now : ℕ) : Except String GameState :=
  if msg.action = "join_game" then
    if msg.success then handleJoinGameSuccess st msg now else Except.ok st
  else if msg.action = "player_joined" then handlePlayerJoined st msg
  else if msg.action = "players_moved" then
    Except.ok (handlePlayersMoved st msg)
  else if msg.action = "player_left" then Except.ok (handlePlayerLeft st msg)
  else Except.ok st

/-- `this.maxReconnectAttempts = 5`. -/
def maxReconnectAttempts : ℕ := 5

/-- `attemptReconnect()` acting on `this.reconnectAttempts`: below the
budget, increment the counter and schedule a reconnect after
`2000 * this.reconnectAttempts` milliseconds (the incremented value);
otherwise give up with no timer. -/
def attemptReconnect (reconnectAttempts : ℕ) : ℕ × Option ℕ :=
  if reconnectAttempts < maxReconnectAttempts then
    (reconnectAttempts + 1, some (2000 * (reconnectAttempts + 1)))
  else (reconnectAttempts, none)

/-- Run `n` consecutive transport failures (each firing `onclose`, hence
`attemptReconnect`), collecting the scheduled reconnect delays in order. -/
def runFailures (reconnectAttempts : ℕ) : ℕ → ℕ × List ℕ
  | 0 => (reconnectAttempts, [])
  | n + 1 =>
    let step := attemptReconnect reconnectAttempts
    let rest := runFailures step.1 n
    (rest.1, step.2.toList ++ rest.2)

/-- Connection-lifecycle events acting on the reconnect counter: a
successful `onopen` or a transport failure (`onclose`). -/
inductive ConnEvent where
  | opened
  | failed

/-- The effect of one connection event on `this.reconnectAttempts`:
`onopen` resets it to 0, a failure runs `attemptReconnect`. -/
def connStep (reconnectAttempts : ℕ) : ConnEvent → ℕ
  | ConnEvent.opened => 0
  | ConnEvent.failed => (attemptReconnect reconnectAttempts).1

/-- Fold a list of connection events over the reconnect counter. -/
def runConn (reconnectAttempts : ℕ) : List ConnEvent → ℕ
  | [] => reconnectAttempts
  | e :: es => runConn (connStep reconnectAttempts e) es

/-! ### Helper lemmas -/

/-- The one-axis clamp `max 0 (min c (s - w))` used by `updateViewport` lands
in `[0, s - w]` when that interval is nonempty and at `0` otherwise. -/
lemma clampAxis_mem (c w s : ℝ) :
    0 ≤ max 0 (min c (s - w)) ∧
      (w ≤ s → max 0 (min c (s - w)) ≤ s - w) ∧
      (s < w → max 0 (min c (s - w)) = 0) := by
  refine ⟨le_max_left 0 _,
    fun h => max_le (by linarith) (min_le_right _ _), fun h => ?_⟩
  have h1 : min c (s - w) ≤ s - w := min_le_right _ _
  have h2 : min c (s - w) ≤ 0 := by linarith
  exact max_eq_left h2

/-- The world-bounds clamp `max 0 (min a hi)` lands in `[0, hi]`. -/
lemma clamp_bounds (a hi : ℝ) (h : 0 ≤ hi) :
    0 ≤ max 0 (min a hi) ∧ max 0 (min a hi) ≤ hi :=
  ⟨le_max_left _ _, max_le h (min_le_right _ _)⟩

/-! ### Claim theorems -/

/-- C1: for every world position and every fixed viewport origin,
`screenToWorld (worldToScreen p) = p`: the two coordinate conversions are
exact inverses. -/
theorem screenToWorld_worldToScreen_inverse (v : Viewport) (worldX worldY : ℝ) :
    screenToWorld v (worldToScreen v worldX worldY).1
      (worldToScreen v worldX worldY).2 = (worldX, worldY) := by
  simp [screenToWorld, worldToScreen]

/-- C2: after recentering on the local player, each axis of the viewport
origin lies in `[0, worldSize - viewportSize]` when that interval is
nonempty, and is `0` when the world is smaller than the viewport on that
axis. -/
theorem updateViewport_origin_clamped (v : Viewport) (p : PlayerData) :
    (0 ≤ (updateViewport v (some p)).x ∧
      (v.width ≤ worldWidth →
        (updateViewport v (some p)).x ≤ worldWidth - v.width) ∧
      (worldWidth < v.width → (updateViewport v (some p)).x = 0)) ∧
    (0 ≤ (updateViewport v (some p)).y ∧
      (v.height ≤ worldHeight →
        (updateViewport v (some p)).y ≤ worldHeight - v.height) ∧
      (worldHeight < v.height → (updateViewport v (some p)).y = 0)) := by
  have hx : (updateViewport v (some p)).x
      = max 0 (min (p.x - v.width / 2) (worldWidth - v.width)) := rfl
  have hy : (updateViewport v (some p)).y
      = max 0 (min (p.y - v.height / 2) (worldHeight - v.height)) := rfl
  rw [hx, hy]
  exact ⟨clampAxis_mem _ _ _, clampAxis_mem _ _ _⟩

/-- A concrete viewport for witnesses: an 800×600 camera at the origin. -/
def cViewport : Viewport := { x := 0, y := 0, width := 800, height := 600 }

/-- A concrete local player for witnesses. -/
def cPlayer : PlayerData :=
  { id := "p1", username := "Crystal", x := 100, y := 100,
    avatar := "adventurer", facing := Facing.south, animationFrame := 0 }

/-- Witness for C2 at a concrete viewport and player. -/
theorem updateViewport_origin_clamped_witness :
    0 ≤ (updateViewport cViewport (some cPlayer)).x ∧
      (updateViewport cViewport (some cPlayer)).x ≤ worldWidth - cViewport.width ∧
      0 ≤ (updateViewport cViewport (some cPlayer)).y ∧
      (updateViewport cViewport (some cPlayer)).y ≤ worldHeight - cViewport.height := by
  have h := updateViewport_origin_clamped cViewport cPlayer
  exact ⟨h.1.1, h.1.2.1 (by norm_num [cViewport, worldWidth]), h.2.1,
    h.2.2.1 (by norm_num [cViewport, worldHeight])⟩

/-- C6: one NPC tick always ends with both coordinates clamped into
`[0, worldWidth] × [0, worldHeight]`. -/
theorem updateNPC_position_in_bounds (npc : NPC) (p : PlayerData) (now : ℕ) :
    0 ≤ (updateNPC npc p now).x ∧ (updateNPC npc p now).x ≤ worldWidth ∧
      0 ≤ (updateNPC npc p now).y ∧ (updateNPC npc p now).y ≤ worldHeight := by
  have hW : (0:ℝ) ≤ worldWidth := by norm_num [worldWidth]
  have hH : (0:ℝ) ≤ worldHeight := by norm_num [worldHeight]
  simp only [updateNPC]
  split
  · exact ⟨(clamp_bounds _ _ hW).1, (clamp_bounds _ _ hW).2,
      (clamp_bounds _ _ hH).1, (clamp_bounds _ _ hH).2⟩
  · exact ⟨(clamp_bounds _ _ hW).1, (clamp_bounds _ _ hW).2,
      (clamp_bounds _ _ hH).1, (clamp_bounds _ _ hH).2⟩

/-- C7: six consecutive transport failures from a fresh session schedule
exactly five reconnect attempts, delayed by 2000, 4000, 6000, 8000 and
10000 ms, leave the counter at the budget, and a further failure schedules
nothing: the handler is permanently disconnected. -/
theorem six_failures_schedule_five_attempts :
    (runFailures 0 6).2 = [2000, 4000, 6000, 8000, 10000] ∧
      (runFailures 0 6).1 = maxReconnectAttempts ∧
      (attemptReconnect (runFailures 0 6).1).2 = none := by
  decide

/-- Running `k` consecutive failures moves the reconnect counter to
`min (a + k) maxReconnectAttempts`. -/
lemma runConn_replicate_failed (a k : ℕ) (h : a ≤ maxReconnectAttempts) :
    runConn a (List.replicate k ConnEvent.failed)
      = min (a + k) maxReconnectAttempts := by
  induction k generalizing a with
  | zero =>
    simp only [List.replicate_zero, runConn]
    omega
  | succ n ih =>
    rw [List.replicate_succ]
    show runConn (connStep a ConnEvent.failed) (List.replicate n ConnEvent.failed) = _
    by_cases hc : a < maxReconnectAttempts
    · have hstep : connStep a ConnEvent.failed = a + 1 := by
        simp [connStep, attemptReconnect, hc]
      rw [hstep, ih (a + 1) (by omega)]
      omega
    · have hstep : connStep a ConnEvent.failed = a := by
        simp [connStep, attemptReconnect, hc]
      rw [hstep, ih a h]
      omega

/-- C10: a successful `onopen` resets the reconnect counter to 0, so after
any prior history, an open followed by `k` consecutive failures leaves the
next failure scheduling a fresh attempt exactly when `k` is below the
5-attempt budget: the budget applies per disconnection episode, and the
terminal state needs 5 consecutive failures with no intervening open. -/
theorem reconnect_budget_resets_on_open (a k : ℕ) :
    connStep a ConnEvent.opened = 0 ∧
      (attemptReconnect
          (runConn a (ConnEvent.opened :: List.replicate k ConnEvent.failed))).2
        = if k < maxReconnectAttempts then some (2000 * (k + 1)) else none := by
  refine ⟨rfl, ?_⟩
  have h0 : runConn a (ConnEvent.opened :: List.replicate k ConnEvent.failed)
      = runConn 0 (List.replicate k ConnEvent.failed) := rfl
  rw [h0, runConn_replicate_failed 0 k (by omega)]
  by_cases hk : k < maxReconnectAttempts
  · have hmin : min (0 + k) maxReconnectAttempts = k := by omega
    rw [hmin, if_pos hk]
    simp [attemptReconnect, hk]
  · have hmin : min (0 + k) maxReconnectAttempts = maxReconnectAttempts := by
      omega
    rw [hmin, if_neg hk]
    simp [attemptReconnect]

/-- C8: a message whose `action` is none of the four known discriminators
leaves the whole client state unchanged and raises no exception. -/
theorem handleServerMessage_unknown_action (st : GameState) (msg : ServerMessage)
    (now : ℕ) (h1 : msg.action ≠ "join_game") (h2 : msg.action ≠ "player_joined")
    (h3 : msg.action ≠ "players_moved") (h4 : msg.action ≠ "player_left") :
    handleServerMessage st msg now = Except.ok st := by
  simp [handleServerMessage, h1, h2, h3, h4]

/-- A message with the unrecognized action `"foo"`. -/
def cUnknownMsg : ServerMessage := { action := "foo" }

/-- A concrete client state before joining: empty stores, no local player. -/
def cState : GameState :=
  { players := [], avatars := [], myPlayerId := none, myPlayer := none,
    npcs := [], npcAvatars := [], viewport := cViewport }

/-- Witness for C8: the `"foo"` message leaves the concrete state intact. -/
theorem handleServerMessage_unknown_action_witness :
    cUnknownMsg.action = "foo" ∧
      handleServerMessage cState cUnknownMsg 0 = Except.ok cState :=
  ⟨rfl, handleServerMessage_unknown_action cState cUnknownMsg 0
    (by decide) (by decide) (by decide) (by decide)⟩

/-- `joinPlayerStep` never changes the recorded local-player id. -/
lemma joinPlayerStep_myPlayerId (s : GameState) (kv : String × PlayerData) :
    (joinPlayerStep s kv).myPlayerId = s.myPlayerId := by
  simp only [joinPlayerStep]
  split
  · rfl
  · rfl

/-- `joinPlayerStep` keeps `myPlayer` untouched for an entry whose key is
not the assigned player id. -/
lemma joinPlayerStep_myPlayer_of_ne (s : GameState) (kv : String × PlayerData)
    (pid : String) (hid : s.myPlayerId = some pid) (hkv : kv.1 ≠ pid) :
    (joinPlayerStep s kv).myPlayer = s.myPlayer := by
  simp only [joinPlayerStep]
  rw [if_neg]
  show ¬ some kv.1 = s.myPlayerId
  rw [hid]
  simp [hkv]

/-- Folding `joinPlayerStep` over entries none of which carries the assigned
id changes neither `myPlayer` nor `myPlayerId`. -/
lemma joinPlayerStep_foldl (pid : String) (l : List (String × PlayerData))
    (s : GameState) (hid : s.myPlayerId = some pid)
    (h : ∀ kv ∈ l, kv.1 ≠ pid) :
    (l.foldl joinPlayerStep s).myPlayer = s.myPlayer ∧
      (l.foldl joinPlayerStep s).myPlayerId = s.myPlayerId := by
  induction l generalizing s with
  | nil => exact ⟨rfl, rfl⟩
  | cons kv l ih =>
    have hkv : kv.1 ≠ pid := h kv (List.mem_cons_self _ _)
    have hid1 : (joinPlayerStep s kv).myPlayerId = some pid := by
      rw [joinPlayerStep_myPlayerId, hid]
    have hrest := ih (joinPlayerStep s kv) hid1
      (fun kv2 hkv2 => h kv2 (List.mem_cons_of_mem _ hkv2))
    refine ⟨?_, ?_⟩
    · rw [List.foldl_cons, hrest.1, joinPlayerStep_myPlayer_of_ne s kv pid hid hkv]
    · rw [List.foldl_cons, hrest.2, joinPlayerStep_myPlayerId]

/-- `createNPCs` is a no-op when there is no local player. -/
lemma createNPCs_of_no_player (st : GameState) (now : ℕ)
    (h : st.myPlayer = none) : createNPCs st now = st := by
  unfold createNPCs
  rw [h]

/-- C9: when no entry of a join-success message's player map carries the
message's assigned player id, the handler leaves `myPlayer` null and throws
on reading its username: the error branch is reachable. -/
theorem handleJoinGameSuccess_missing_self (st : GameState) (msg : ServerMessage)
    (now : ℕ) (hmp : st.myPlayer = none)
    (habs : ∀ kv ∈ msg.players, kv.1 ≠ msg.playerId) :
    handleJoinGameSuccess st msg now = Except.error joinNullPlayerError := by
  have hmp2 : (List.foldl joinPlayerStep
      { st with myPlayerId := some msg.playerId } msg.players).myPlayer = none := by
    rw [(joinPlayerStep_foldl msg.playerId msg.players _ rfl habs).1]
    exact hmp
  simp only [handleJoinGameSuccess]
  rw [createNPCs_of_no_player _ now (by simpa using hmp2)]
  simp [hmp2]

/-- The key of the only player entry in the C9 witness message. -/
def p2Key : String := "p2"

/-- A remote player used in the C9 witness message. -/
def cOtherPlayer : PlayerData :=
  { id := "p2", username := "Other", x := 200, y := 300,
    avatar := "adventurer", facing := Facing.south, animationFrame := 0 }

/-- A join-success message whose players map lacks the assigned id `"p1"`. -/
def cJoinMsg : ServerMessage :=
  { action := "join_game", success := true, playerId := "p1",
    players := [(p2Key, cOtherPlayer)], avatars := [] }

/-- Witness for C9 at the concrete pre-join state and message. -/
theorem handleJoinGameSuccess_missing_self_witness :
    cState.myPlayer = none ∧
      handleJoinGameSuccess cState cJoinMsg 0
        = Except.error joinNullPlayerError :=
  ⟨rfl, handleJoinGameSuccess_missing_self cState cJoinMsg 0 rfl (by
    intro kv hkv
    have hkv2 : kv = (p2Key, cOtherPlayer) := by
      simpa [cJoinMsg] using hkv
    rw [hkv2]
    simp [p2Key, cJoinMsg])⟩

/-- C5: an NPC at most its follow distance away from the local player (and
already inside world bounds) keeps its position, resets its animation frame
to 0 and is marked stationary by one tick. -/
theorem updateNPC_near_stationary (npc : NPC) (p : PlayerData) (now : ℕ)
    (hnear : npcDistance npc p ≤ npc.followDistance)
    (hx0 : 0 ≤ npc.x) (hxW : npc.x ≤ worldWidth)
    (hy0 : 0 ≤ npc.y) (hyH : npc.y ≤ worldHeight) :
    (updateNPC npc p now).x = npc.x ∧ (updateNPC npc p now).y = npc.y ∧
      (updateNPC npc p now).animationFrame = 0 ∧
      (updateNPC npc p now).isMoving = false := by
  have hcond : ¬ npc.followDistance < Real.sqrt
      ((p.x - npc.x) * (p.x - npc.x) + (p.y - npc.y) * (p.y - npc.y)) :=
    not_lt.mpr hnear
  simp only [updateNPC, gt_iff_lt]
  rw [if_neg hcond]
  refine ⟨?_, ?_, rfl, rfl⟩
  · show max 0 (min npc.x worldWidth) = npc.x
    rw [min_eq_left hxW, max_eq_right hx0]
  · show max 0 (min npc.y worldHeight) = npc.y
    rw [min_eq_left hyH, max_eq_right hy0]

/-- A companion 50 units below the local player, inside its follow
distance. -/
def cNearNpc : NPC :=
  { id := "npc3", name := "Pet", x := 100, y := 150, avatar := "pet",
    followDistance := 80, facing := Facing.south, isMoving := false,
    animationFrame := 0, lastUpdate := 0 }

/-- Witness for C5: the concrete near companion does not move. -/
theorem updateNPC_near_stationary_witness :
    (updateNPC cNearNpc cPlayer 0).x = cNearNpc.x ∧
      (updateNPC cNearNpc cPlayer 0).y = cNearNpc.y ∧
      (updateNPC cNearNpc cPlayer 0).animationFrame = 0 ∧
      (updateNPC cNearNpc cPlayer 0).isMoving = false := by
  apply updateNPC_near_stationary
  · have harg : (cPlayer.x - cNearNpc.x) * (cPlayer.x - cNearNpc.x)
        + (cPlayer.y - cNearNpc.y) * (cPlayer.y - cNearNpc.y) = 50 * 50 := by
      norm_num [cPlayer, cNearNpc]
    show Real.sqrt ((cPlayer.x - cNearNpc.x) * (cPlayer.x - cNearNpc.x)
        + (cPlayer.y - cNearNpc.y) * (cPlayer.y - cNearNpc.y))
      ≤ cNearNpc.followDistance
    rw [harg, Real.sqrt_mul_self (by norm_num : (0:ℝ) ≤ 50)]
    norm_num [cNearNpc]
  · norm_num [cNearNpc]
  · norm_num [cNearNpc, worldWidth]
  · norm_num [cNearNpc]
  · norm_num [cNearNpc, worldHeight]

/-- C4 (amended): on an exact tie of the absolute deltas the `else` branch
runs, so the facing becomes south or north by the sign of the vertical
delta — vertical wins the tie, not horizontal. -/
theorem updateNPC_facing_tie_vertical (npc : NPC) (p : PlayerData) (now : ℕ)
    (htie : |p.x - npc.x| = |p.y - npc.y|)
    (hfar : npcDistance npc p > npc.followDistance) :
    (updateNPC npc p now).facing
      = if 0 < p.y - npc.y then Facing.south else Facing.north := by
  have hcond : npc.followDistance < Real.sqrt
      ((p.x - npc.x) * (p.x - npc.x) + (p.y - npc.y) * (p.y - npc.y)) := hfar
  have hnotgt : ¬ |p.y - npc.y| < |p.x - npc.x| := by
    rw [htie]
    exact lt_irrefl _
  simp only [updateNPC, gt_iff_lt]
  rw [if_pos hcond]
  show (if |p.x - npc.x| > |p.y - npc.y| then
      (if p.x - npc.x > 0 then Facing.east else Facing.west)
    else (if p.y - npc.y > 0 then Facing.south else Facing.north)) = _
  rw [if_neg hnotgt]

/-- A companion at the origin whose deltas to the player tie in absolute
value. -/
def cTieNpc : NPC :=
  { id := "npc3", name := "Pet", x := 0, y := 0, avatar := "pet",
    followDistance := 80, facing := Facing.south, isMoving := false,
    animationFrame := 0, lastUpdate := 0 }

/-- A player diagonally up-right of `cTieNpc`, at equal deltas. -/
def cTiePlayer : PlayerData :=
  { id := "p1", username := "Crystal", x := 200, y := 200,
    avatar := "adventurer", facing := Facing.south, animationFrame := 0 }

/-- The tie configuration is outside the follow distance. -/
lemma cTie_far : npcDistance cTieNpc cTiePlayer > cTieNpc.followDistance := by
  show cTieNpc.followDistance < Real.sqrt
    ((cTiePlayer.x - cTieNpc.x) * (cTiePlayer.x - cTieNpc.x)
      + (cTiePlayer.y - cTieNpc.y) * (cTiePlayer.y - cTieNpc.y))
  have harg : (cTiePlayer.x - cTieNpc.x) * (cTiePlayer.x - cTieNpc.x)
      + (cTiePlayer.y - cTieNpc.y) * (cTiePlayer.y - cTieNpc.y) = 80000 := by
    norm_num [cTiePlayer, cTieNpc]
  rw [harg]
  have h80 : cTieNpc.followDistance = (80:ℝ) := rfl
  rw [h80]
  rw [show (80:ℝ) = Real.sqrt (80 * 80) from
    (Real.sqrt_mul_self (by norm_num : (0:ℝ) ≤ 80)).symm]
  rw [Real.sqrt_lt_sqrt_iff (by norm_num)]
  norm_num

/-- Counterexample to C4 as stated: with `|dx| = |dy|` (both 200, nonzero,
`dx > 0`) and the player out of follow range, the tick sets facing to
south, not east. -/
theorem updateNPC_facing_tie_cex :
    |cTiePlayer.x - cTieNpc.x| = |cTiePlayer.y - cTieNpc.y| ∧
      0 < cTiePlayer.x - cTieNpc.x ∧
      npcDistance cTieNpc cTiePlayer > cTieNpc.followDistance ∧
      (updateNPC cTieNpc cTiePlayer 0).facing ≠ Facing.east := by
  refine ⟨by norm_num [cTiePlayer, cTieNpc], by norm_num [cTiePlayer, cTieNpc],
    cTie_far, ?_⟩
  have hnotgt : ¬ |cTiePlayer.y - cTieNpc.y| < |cTiePlayer.x - cTieNpc.x| := by
    norm_num [cTiePlayer, cTieNpc]
  have hpos : (0:ℝ) < cTiePlayer.y - cTieNpc.y := by
    norm_num [cTiePlayer, cTieNpc]
  have hfar2 : cTieNpc.followDistance < Real.sqrt
      ((cTiePlayer.x - cTieNpc.x) * (cTiePlayer.x - cTieNpc.x)
        + (cTiePlayer.y - cTieNpc.y) * (cTiePlayer.y - cTieNpc.y)) := cTie_far
  simp only [updateNPC, gt_iff_lt]
  rw [if_pos hfar2]
  show (if |cTiePlayer.x - cTieNpc.x| > |cTiePlayer.y - cTieNpc.y| then
      (if cTiePlayer.x - cTieNpc.x > 0 then Facing.east else Facing.west)
    else (if cTiePlayer.y - cTieNpc.y > 0 then Facing.south else Facing.north))
      ≠ Facing.east
  rw [if_neg hnotgt, if_pos hpos]
  decide

/-- Witness for the amended C4 at the concrete tie configuration. -/
theorem updateNPC_facing_tie_vertical_witness :
    (updateNPC cTieNpc cTiePlayer 0).facing = Facing.south := by
  have h := updateNPC_facing_tie_vertical cTieNpc cTiePlayer 0
    (by norm_num [cTiePlayer, cTieNpc]) cTie_far
  rw [h, if_pos]
  norm_num [cTiePlayer, cTieNpc]

/-- Clamping one coordinate into `[lo, hi]` cannot increase its squared
distance to a point already inside `[lo, hi]`. -/
lemma clamp_sq_le (a b lo hi : ℝ) (h1 : lo ≤ b) (h2 : b ≤ hi) :
    (b - max lo (min a hi)) * (b - max lo (min a hi)) ≤ (b - a) * (b - a) := by
  rcases le_total a hi with hah | hha
  · rcases le_total lo a with hla | hal
    · rw [min_eq_left hah, max_eq_right hla]
    · rw [min_eq_left hah, max_eq_left hal]
      nlinarith
  · rw [min_eq_right hha, max_eq_right (h1.trans h2)]
    nlinarith

/-- Core of the follow step: moving 2 units along the `atan2` direction
toward an in-bounds player and then clamping into world bounds strictly
decreases the distance, provided the current distance exceeds a follow
distance of at least 1. -/
lemma moveToward_dist_lt (nx ny px py fd : ℝ) (hfd : 1 ≤ fd)
    (hpx0 : 0 ≤ px) (hpxW : px ≤ worldWidth)
    (hpy0 : 0 ≤ py) (hpyH : py ≤ worldHeight)
    (hfar : fd < Real.sqrt ((px - nx) * (px - nx) + (py - ny) * (py - ny))) :
    Real.sqrt
        ((px - max 0 (min (nx + Real.cos (atan2 (py - ny) (px - nx)) * 2) worldWidth))
            * (px - max 0 (min (nx + Real.cos (atan2 (py - ny) (px - nx)) * 2) worldWidth))
          + (py - max 0 (min (ny + Real.sin (atan2 (py - ny) (px - nx)) * 2) worldHeight))
            * (py - max 0 (min (ny + Real.sin (atan2 (py - ny) (px - nx)) * 2) worldHeight)))
      < Real.sqrt ((px - nx) * (px - nx) + (py - ny) * (py - ny)) := by
  have hd1 : 1 < Real.sqrt ((px - nx) * (px - nx) + (py - ny) * (py - ny)) :=
    lt_of_le_of_lt hfd hfar
  set d := Real.sqrt ((px - nx) * (px - nx) + (py - ny) * (py - ny)) with hdDef
  have hd0 : (0:ℝ) < d := by linarith
  have hdd : d * d = (px - nx) * (px - nx) + (py - ny) * (py - ny) := by
    rw [hdDef]
    exact Real.mul_self_sqrt
      (add_nonneg (mul_self_nonneg _) (mul_self_nonneg _))
  have hz : (⟨px - nx, py - ny⟩ : ℂ) ≠ 0 := by
    intro h
    have hre : px - nx = (0:ℝ) := congrArg Complex.re h
    have him : py - ny = (0:ℝ) := congrArg Complex.im h
    rw [hre, him] at hdd
    nlinarith
  have habs : Complex.abs ⟨px - nx, py - ny⟩ = d := by
    rw [Complex.abs_apply, Complex.normSq_mk, ← hdDef]
  have hcos : Real.cos (atan2 (py - ny) (px - nx)) = (px - nx) / d := by
    simp only [atan2]
    rw [Complex.cos_arg hz, habs]
  have hsin : Real.sin (atan2 (py - ny) (px - nx)) = (py - ny) / d := by
    simp only [atan2]
    rw [Complex.sin_arg, habs]
  rw [hcos, hsin]
  have hA1 := clamp_sq_le (nx + (px - nx) / d * 2) px 0 worldWidth hpx0 hpxW
  have hA2 := clamp_sq_le (ny + (py - ny) / d * 2) py 0 worldHeight hpy0 hpyH
  have hB : (px - (nx + (px - nx) / d * 2)) * (px - (nx + (px - nx) / d * 2))
      + (py - (ny + (py - ny) / d * 2)) * (py - (ny + (py - ny) / d * 2))
      = (d - 2) * (d - 2) := by
    have hdne : d ≠ 0 := ne_of_gt hd0
    have h3 : d * (1 - 2 / d) = d - 2 := by
      field_simp
    calc (px - (nx + (px - nx) / d * 2)) * (px - (nx + (px - nx) / d * 2))
          + (py - (ny + (py - ny) / d * 2)) * (py - (ny + (py - ny) / d * 2))
        = ((px - nx) * (px - nx) + (py - ny) * (py - ny))
            * ((1 - 2 / d) * (1 - 2 / d)) := by ring
      _ = (d * d) * ((1 - 2 / d) * (1 - 2 / d)) := by rw [← hdd]
      _ = (d * (1 - 2 / d)) * (d * (1 - 2 / d)) := by ring
      _ = (d - 2) * (d - 2) := by rw [h3]
  have hle : Real.sqrt
      ((px - max 0 (min (nx + (px - nx) / d * 2) worldWidth))
          * (px - max 0 (min (nx + (px - nx) / d * 2) worldWidth))
        + (py - max 0 (min (ny + (py - ny) / d * 2) worldHeight))
          * (py - max 0 (min (ny + (py - ny) / d * 2) worldHeight)))
      ≤ Real.sqrt ((d - 2) * (d - 2)) := by
    apply Real.sqrt_le_sqrt
    rw [← hB]
    exact add_le_add hA1 hA2
  have habs2 : Real.sqrt ((d - 2) * (d - 2)) = |d - 2| :=
    Real.sqrt_mul_self_eq_abs _
  have hlt : |d - 2| < d := abs_lt.mpr ⟨by linarith, by linarith⟩
  exact lt_of_le_of_lt (le_trans hle (le_of_eq habs2)) hlt

/-- C3 (amended): a tick on an NPC farther from the (in-bounds) local player
than its follow distance — the follow distance being at least 1, as all
seeded companions satisfy — strictly decreases the distance to the
player. -/
theorem updateNPC_far_decreases_distance (npc : NPC) (p : PlayerData) (now : ℕ)
    (hfd : 1 ≤ npc.followDistance)
    (hpx0 : 0 ≤ p.x) (hpxW : p.x ≤ worldWidth)
    (hpy0 : 0 ≤ p.y) (hpyH : p.y ≤ worldHeight)
    (hfar : npcDistance npc p > npc.followDistance) :
    npcDistance (updateNPC npc p now) p < npcDistance npc p := by
  have hcond : npc.followDistance < Real.sqrt
      ((p.x - npc.x) * (p.x - npc.x) + (p.y - npc.y) * (p.y - npc.y)) := hfar
  simp only [npcDistance, updateNPC, gt_iff_lt]
  rw [if_pos hcond]
  exact moveToward_dist_lt npc.x npc.y p.x p.y npc.followDistance hfd
    hpx0 hpxW hpy0 hpyH hcond

/-- Every companion created by `createNPCs` has follow distance at least 1
(the seeded values are 100, 150 and 80). -/
lemma npcSeedData_followDistance_ge_one (p : PlayerData) (now : ℕ) :
    ∀ npc ∈ npcSeedData p now, 1 ≤ npc.followDistance := by
  intro npc h
  simp only [npcSeedData, List.mem_cons, List.not_mem_nil, or_false] at h
  rcases h with h | h | h <;> rw [h] <;> norm_num

/-- A companion at the origin with the seeded pet follow distance of 80. -/
def cPetNpc : NPC :=
  { id := "npc3", name := "Pet", x := 0, y := 0, avatar := "pet",
    followDistance := 80, facing := Facing.south, isMoving := false,
    animationFrame := 0, lastUpdate := 0 }

/-- A player 100 units outside the left world edge. -/
def cOutPlayer : PlayerData :=
  { id := "p1", username := "Crystal", x := -100, y := 0,
    avatar := "adventurer", facing := Facing.south, animationFrame := 0 }

/-- A player 100 units to the right of `cPetNpc`, inside the world. -/
def cInPlayer : PlayerData :=
  { id := "p1", username := "Crystal", x := 100, y := 0,
    avatar := "adventurer", facing := Facing.south, animationFrame := 0 }

/-- The out-of-bounds player is 100 units from `cPetNpc`. -/
lemma cOut_dist : npcDistance cPetNpc cOutPlayer = 100 := by
  show Real.sqrt ((cOutPlayer.x - cPetNpc.x) * (cOutPlayer.x - cPetNpc.x)
      + (cOutPlayer.y - cPetNpc.y) * (cOutPlayer.y - cPetNpc.y)) = 100
  rw [show (cOutPlayer.x - cPetNpc.x) * (cOutPlayer.x - cPetNpc.x)
      + (cOutPlayer.y - cPetNpc.y) * (cOutPlayer.y - cPetNpc.y) = 100 * 100 from by
    norm_num [cOutPlayer, cPetNpc]]
  exact Real.sqrt_mul_self (by norm_num)

/-- The in-bounds player is 100 units from `cPetNpc`. -/
lemma cIn_dist : npcDistance cPetNpc cInPlayer = 100 := by
  show Real.sqrt ((cInPlayer.x - cPetNpc.x) * (cInPlayer.x - cPetNpc.x)
      + (cInPlayer.y - cPetNpc.y) * (cInPlayer.y - cPetNpc.y)) = 100
  rw [show (cInPlayer.x - cPetNpc.x) * (cInPlayer.x - cPetNpc.x)
      + (cInPlayer.y - cPetNpc.y) * (cInPlayer.y - cPetNpc.y) = 100 * 100 from by
    norm_num [cInPlayer, cPetNpc]]
  exact Real.sqrt_mul_self (by norm_num)

/-- One tick toward the out-of-bounds player moves `cPetNpc` 2 units west,
and the world-bounds clamp puts it straight back: the distance is still
100. -/
lemma cOut_tick_dist :
    npcDistance (updateNPC cPetNpc cOutPlayer 0) cOutPlayer = 100 := by
  have hz : (⟨cOutPlayer.x - cPetNpc.x, cOutPlayer.y - cPetNpc.y⟩ : ℂ) ≠ 0 := by
    intro h
    have hre : cOutPlayer.x - cPetNpc.x = (0:ℝ) := congrArg Complex.re h
    norm_num [cOutPlayer, cPetNpc] at hre
  have habs : Complex.abs ⟨cOutPlayer.x - cPetNpc.x, cOutPlayer.y - cPetNpc.y⟩
      = 100 := by
    rw [Complex.abs_apply, Complex.normSq_mk]
    rw [show (cOutPlayer.x - cPetNpc.x) * (cOutPlayer.x - cPetNpc.x)
        + (cOutPlayer.y - cPetNpc.y) * (cOutPlayer.y - cPetNpc.y) = 100 * 100 from by
      norm_num [cOutPlayer, cPetNpc]]
    exact Real.sqrt_mul_self (by norm_num)
  have hcos : Real.cos (atan2 (cOutPlayer.y - cPetNpc.y) (cOutPlayer.x - cPetNpc.x))
      = -1 := by
    simp only [atan2]
    rw [Complex.cos_arg hz, habs]
    show (cOutPlayer.x - cPetNpc.x) / 100 = -1
    norm_num [cOutPlayer, cPetNpc]
  have hsin : Real.sin (atan2 (cOutPlayer.y - cPetNpc.y) (cOutPlayer.x - cPetNpc.x))
      = 0 := by
    simp only [atan2]
    rw [Complex.sin_arg, habs]
    show (cOutPlayer.y - cPetNpc.y) / 100 = 0
    norm_num [cOutPlayer, cPetNpc]
  have hcond : cPetNpc.followDistance < Real.sqrt
      ((cOutPlayer.x - cPetNpc.x) * (cOutPlayer.x - cPetNpc.x)
        + (cOutPlayer.y - cPetNpc.y) * (cOutPlayer.y - cPetNpc.y)) := by
    have h := cOut_dist
    rw [show Real.sqrt ((cOutPlayer.x - cPetNpc.x) * (cOutPlayer.x - cPetNpc.x)
        + (cOutPlayer.y - cPetNpc.y) * (cOutPlayer.y - cPetNpc.y))
      = npcDistance cPetNpc cOutPlayer from rfl, h]
    norm_num [cPetNpc]
  simp only [npcDistance, updateNPC, gt_iff_lt]
  rw [if_pos hcond, hcos, hsin]
  rw [show max 0 (min (cPetNpc.x + (-1) * 2) worldWidth) = 0 from by
    rw [min_eq_left (by norm_num [cPetNpc, worldWidth]),
      max_eq_left (by norm_num [cPetNpc])]]
  rw [show max 0 (min (cPetNpc.y + 0 * 2) worldHeight) = 0 from by
    rw [min_eq_left (by norm_num [cPetNpc, worldHeight]),
      max_eq_left (by norm_num [cPetNpc])]]
  rw [show (cOutPlayer.x - 0) * (cOutPlayer.x - 0)
      + (cOutPlayer.y - 0) * (cOutPlayer.y - 0) = 100 * 100 from by
    norm_num [cOutPlayer]]
  exact Real.sqrt_mul_self (by norm_num)

/-- Counterexample to C3 as stated: the pet companion at the origin and a
player 100 units outside the left world edge are farther apart than the
follow distance with a nonzero delta, yet one tick does not decrease the
distance (the final clamp cancels the whole move). -/
theorem updateNPC_far_no_decrease_cex :
    npcDistance cPetNpc cOutPlayer > cPetNpc.followDistance ∧
      (cOutPlayer.x - cPetNpc.x ≠ 0 ∨ cOutPlayer.y - cPetNpc.y ≠ 0) ∧
      ¬ npcDistance (updateNPC cPetNpc cOutPlayer 0) cOutPlayer
          < npcDistance cPetNpc cOutPlayer := by
  refine ⟨?_, Or.inl (by norm_num [cOutPlayer, cPetNpc]), ?_⟩
  · show cPetNpc.followDistance < npcDistance cPetNpc cOutPlayer
    rw [cOut_dist]
    norm_num [cPetNpc]
  · rw [cOut_dist, cOut_tick_dist]
    norm_num

/-- Witness for the amended C3: with an in-bounds player 100 units east of
the pet companion, one tick strictly decreases the distance. -/
theorem updateNPC_far_decreases_distance_witness :
    1 ≤ cPetNpc.followDistance ∧
      npcDistance cPetNpc cInPlayer > cPetNpc.followDistance ∧
      npcDistance (updateNPC cPetNpc cInPlayer 0) cInPlayer
        < npcDistance cPetNpc cInPlayer := by
  have hfar : npcDistance cPetNpc cInPlayer > cPetNpc.followDistance := by
    show cPetNpc.followDistance < npcDistance cPetNpc cInPlayer
    rw [cIn_dist]
    norm_num [cPetNpc]
  refine ⟨by norm_num [cPetNpc], hfar, ?_⟩
  exact updateNPC_far_decreases_distance cPetNpc cInPlayer 0
    (by norm_num [cPetNpc]) (by norm_num [cInPlayer])
    (by norm_num [cInPlayer, worldWidth]) (by norm_num [cInPlayer])
    (by norm_num [cInPlayer, worldHeight]) hfar

end GameClient
